import Mathlib

/-!
Shallow embedding of src/msp430/msp430_spi.c: an SPI hardware-abstraction
layer for MSP430 microcontrollers with build-time backend selection (USI,
USCI_A, USCI_B on G2xx3/G2xx5 chips, and the F5xxx USCI variants).

The digital port registers (P1REN, P1OUT, P1DIR, P1SEL, P1SEL2) are 8-bit
registers; they are modelled as natural numbers, with the C operation
`x &= ~m` on an 8-bit register rendered as `x &&& (0xFF ^^^ m)`.  The remote
SPI device and the pin input register P1IN form an environment: the value
read from P1IN is a function of the currently driven port state, and the
hardware receive buffer holds a function of the transmitted byte.
-/

/-- Digital I/O port register block (P1 for the G2xx3 backends): pull-resistor
enable, output level, direction, and the two function-select registers. -/
structure Port where
  ren : Nat
  out : Nat
  dir : Nat
  sel : Nat
  sel2 : Nat
deriving DecidableEq, Repr

/-- Environment of a transfer: `pin` is the value the port input register
(P1IN) reads, as a function of the currently driven port state; `rx` is the
byte found in the hardware receive buffer after an 8-bit exchange of the
given transmit byte. -/
structure SpiEnv where
  pin : Port → Nat
  rx : Nat → Nat

/-- Pin assignment of a bit-banging `spi_transfer9` variant: `mask` covers the
three repurposed pins, `outm` the two driven as outputs in P1DIR, `dout` the
data-out pin, `sck` the manually toggled clock pin, and `din` the P1IN bit
tested by the sample. -/
structure PinMap where
  mask : Nat
  outm : Nat
  dout : Nat
  sck : Nat
  din : Nat
deriving DecidableEq, Repr

/-- USCI_A on G2xx3 (source lines 125-155): pins BIT1 (SOMI, sampled),
BIT2 (SIMO, data out) and BIT4 (clock) of port 1. -/
def usciA : PinMap :=
  { mask := 0x16, outm := 0x14, dout := 0x04, sck := 0x10, din := 0x02 }

/-- USCI_B on G2xx3 (source lines 197-227): pins BIT5 (clock), BIT6 and
BIT7 (data out) of port 1; the sample at line 214 tests P1IN & BIT4. -/
def usciB : PinMap :=
  { mask := 0xE0, outm := 0xA0, dout := 0x80, sck := 0x20, din := 0x10 }

/-- Observable events of a `spi_transfer9` call: a port-register write leaving
the ports in the given state, a read of the port input register returning the
given value, and the delegated 8-bit hardware transfer with its transmitted
and received bytes. -/
inductive Ev where
  | wr (q : Port)
  | sample (v : Nat)
  | hw (tx rx : Nat)
deriving DecidableEq, Repr

/-- Everything observable about one bit-banged `spi_transfer9` call: the event
trace in program order, the intermediate port states after each register write
(entry state first), the returned 16-bit value, and the port state at return. -/
structure BB9Run where
  trace : List Ev
  states : List Port
  result : Nat
  final : Port

/-- Embedding of the bit-banging `spi_transfer9` bodies (source lines 125-155
and 197-227), parameterised by the pin assignment.  Step by step: save
P1REN/P1OUT/P1DIR; clear the three pins in P1REN, P1OUT; set the direction
register with the three pins cleared and the clock and data-out pins set;
clear the three pins in P1SEL and P1SEL2; if bit 8 of the input is set, drive
data-out high; raise the clock pin; sample P1IN; lower the clock pin; set the
three pins in P1SEL and P1SEL2; restore P1DIR, P1OUT, P1REN from the saved
values; finally delegate the low byte to `spi_transfer` and OR the returned
byte (an 8-bit register read) into the result. -/
def bb9_run (c : PinMap) (env : SpiEnv) (s0 : Port) (inw : Nat) : BB9Run :=
  let nm := 0xFF ^^^ c.mask
  let q1 : Port := { s0 with ren := s0.ren &&& nm }
  let q2 : Port := { q1 with out := q1.out &&& nm }
  let q3 : Port := { q2 with dir := (q2.dir &&& nm) ||| c.outm }
  let q4 : Port := { q3 with sel := q3.sel &&& nm }
  let q5 : Port := { q4 with sel2 := q4.sel2 &&& nm }
  let q6 : Port := if inw &&& 0x100 ≠ 0 then { q5 with out := q5.out ||| c.dout } else q5
  let q7 : Port := { q6 with out := q6.out ||| c.sck }
  let pinv := env.pin q7
  let q8 : Port := { q7 with out := q7.out &&& (0xFF ^^^ c.sck) }
  let q9 : Port := { q8 with sel := q8.sel ||| c.mask }
  let q10 : Port := { q9 with sel2 := q9.sel2 ||| c.mask }
  let q11 : Port := { q10 with dir := s0.dir }
  let q12 : Port := { q11 with out := s0.out }
  let q13 : Port := { q12 with ren := s0.ren }
  let tx := inw &&& 0xFF
  let rxv := env.rx tx % 256
  let hi : Nat := if pinv &&& c.din ≠ 0 then 0x100 else 0
  { trace :=
      [Ev.wr q1, Ev.wr q2, Ev.wr q3, Ev.wr q4, Ev.wr q5]
      ++ (if inw &&& 0x100 ≠ 0 then [Ev.wr q6] else [])
      ++ [Ev.wr q7, Ev.sample pinv, Ev.wr q8, Ev.wr q9, Ev.wr q10,
          Ev.wr q11, Ev.wr q12, Ev.wr q13, Ev.hw tx rxv],
    states := [s0, q1, q2, q3, q4, q5, q6, q7, q8, q9, q10, q11, q12, q13],
    result := hi ||| rxv,
    final := q13 }

/-- Value returned by the bit-banged `spi_transfer9`. -/
def bb9_result (c : PinMap) (env : SpiEnv) (s0 : Port) (inw : Nat) : Nat :=
  (bb9_run c env s0 inw).result

/-- Port state at return of the bit-banged `spi_transfer9`. -/
def bb9_final (c : PinMap) (env : SpiEnv) (s0 : Port) (inw : Nat) : Port :=
  (bb9_run c env s0 inw).final

/-- Event trace of the bit-banged `spi_transfer9`, in program order. -/
def bb9_trace (c : PinMap) (env : SpiEnv) (s0 : Port) (inw : Nat) : List Ev :=
  (bb9_run c env s0 inw).trace

/-- Intermediate port states of the bit-banged `spi_transfer9`: the entry
state followed by the state after each register write, in program order. -/
def bb9_states (c : PinMap) (env : SpiEnv) (s0 : Port) (inw : Nat) : List Port :=
  (bb9_run c env s0 inw).states

/-- Intermediate port state number `i` of the bit-banged `spi_transfer9`
(0 is the entry state, 13 the state at return). -/
def bb9_at (c : PinMap) (env : SpiEnv) (s0 : Port) (inw i : Nat) : Port :=
  (bb9_states c env s0 inw).getD i s0

/-- True when no event of the list is a delegated hardware transfer. -/
def noHw (l : List Ev) : Bool :=
  l.all fun e =>
    match e with
    | .hw _ _ => false
    | _ => true

/-- Register bits `i` of the two port states agree on all five registers. -/
def regsAgree (q s : Port) (i : Nat) : Prop :=
  q.ren.testBit i = s.ren.testBit i ∧ q.out.testBit i = s.out.testBit i ∧
  q.dir.testBit i = s.dir.testBit i ∧ q.sel.testBit i = s.sel.testBit i ∧
  q.sel2.testBit i = s.sel2.testBit i

/-- Observable behaviour of the USCI `spi_transfer` (source lines 101-107):
the transmit byte is written to the 8-bit transmit register, the code blocks
until the receive flag rises, and the 8-bit receive buffer is returned.
The pair holds the sequence of transmit-register writes and the uint8_t
return value, given the byte `rx` the remote device shifted in. -/
def spi_transfer_obs (inb rx : Nat) : List Nat × Nat :=
  ([inb % 256], rx % 256)

/-- Byte order a C compiler stores a 16-bit integer with. -/
inductive Endian where
  | little
  | big
deriving DecidableEq, Repr

/-- Byte `i` (0 or 1) of the 16-bit value `w` viewed through a `uint8_t`
pointer, as the source's `inw8[i]` does: on a little-endian host byte 0 is
the least significant byte, on a big-endian host the most significant. -/
def byteAt (e : Endian) (w i : Nat) : Nat :=
  match e, i with
  | .little, 0 => w % 256
  | .little, _ => (w / 256) % 256
  | .big, 0 => (w / 256) % 256
  | .big, _ => w % 256

/-- Store byte `b` into storage byte `i` (0 or 1) of the 16-bit value `w`
through a `uint8_t` pointer, as the source's `retw8[i] = ...` does. -/
def storeByte (e : Endian) (w i b : Nat) : Nat :=
  match e, i with
  | .little, 0 => 256 * (w / 256) + b % 256
  | .little, _ => (b % 256) * 256 + w % 256
  | .big, 0 => (b % 256) * 256 + w % 256
  | .big, _ => 256 * (w / 256) + b % 256

/-- Observable behaviour of the USCI `spi_transfer16` (source lines 109-123),
parameterised by the byte order of the host the C is compiled for: write
`inw8[1]` to the transmit register, wait, store the receive buffer into
`retw8[1]`; then the same with index 0; return `retw`.  `r1` and `r2` are the
two bytes the remote device shifted in, in exchange order.  Both bytes of
`retw` are written before it is returned, so it is built from 0 here even
though the C leaves it uninitialised. -/
def spi_transfer16_obs (e : Endian) (inw r1 r2 : Nat) : List Nat × Nat :=
  let tx1 := byteAt e inw 1
  let tx2 := byteAt e inw 0
  let w1 := storeByte e 0 1 (r1 % 256)
  let w2 := storeByte e w1 0 (r2 % 256)
  ([tx1 % 256, tx2 % 256], w2)

/-- Modelled from the specification section 4.3: `transfer16` defined
compositionally as two `transfer8` calls, most-significant byte first, the
logical value decomposed by arithmetic (`high = value >> 8`,
`low = value & 0xFF`), and the two received bytes recombined in the same
order, the first received byte becoming the high byte of the result. -/
def transfer16_spec (inw r1 r2 : Nat) : List Nat × Nat :=
  let c1 := spi_transfer_obs ((inw >>> 8) &&& 0xFF) r1
  let c2 := spi_transfer_obs (inw &&& 0xFF) r2
  (c1.1 ++ c2.1, c1.2 <<< 8 + c2.2)

/-- Preprocessor symbols the source's conditional-compilation structure
tests.  One field per macro: the device-capability macros, the two driver
selection macros, the device macros, and the two misspelled device macros
`__MS430F5172` and `__MS430F5529` that lines 420 and 452 test (no MSP430
toolchain defines these; the F5172/F5529 builds define `__MSP430F5172` and
`__MSP430F5529`). -/
structure BuildConfig where
  hasUSI : Bool
  hasUSCI : Bool
  hasUSCI_A0 : Bool
  hasUSCI_B0 : Bool
  hasTB3 : Bool
  driverA : Bool
  driverB : Bool
  f5172 : Bool
  f5529 : Bool
  ms430f5172 : Bool
  ms430f5529 : Bool
deriving DecidableEq, Repr

/-- Whether a build configuration compiles a definition of `spi_init`
(and equally `spi_transfer` and `spi_transfer16`, which sit in the same
conditional blocks): one disjunct per `#if` block of the source. -/
def defines_spi_init (c : BuildConfig) : Bool :=
  c.hasUSI
  || (c.hasUSCI && c.driverA && !c.hasTB3)
  || (c.hasUSCI && c.driverB && !c.hasTB3)
  || (c.hasUSCI && c.driverA && c.hasTB3)
  || (c.hasUSCI && c.driverB && c.hasTB3)
  || (c.hasUSCI_A0 && c.driverA)
  || (c.hasUSCI_B0 && c.driverB)

/-- Whether a build configuration compiles a definition of `spi_transfer`. -/
def defines_spi_transfer (c : BuildConfig) : Bool :=
  defines_spi_init c

/-- Whether a build configuration compiles a definition of `spi_transfer16`. -/
def defines_spi_transfer16 (c : BuildConfig) : Bool :=
  defines_spi_init c

/-- Whether a build configuration compiles a definition of `spi_transfer9`:
as `defines_spi_init`, except that inside the F5xxx USCI_A block the two
variants are guarded by `#ifdef __MS430F5172` (line 420) and
`#ifdef __MS430F5529` (line 452), while the F5xxx USCI_B block (lines 531
and 563) tests the correctly spelled `__MSP430F5172` and `__MSP430F5529`. -/
def defines_spi_transfer9 (c : BuildConfig) : Bool :=
  c.hasUSI
  || (c.hasUSCI && c.driverA && !c.hasTB3)
  || (c.hasUSCI && c.driverB && !c.hasTB3)
  || (c.hasUSCI && c.driverA && c.hasTB3)
  || (c.hasUSCI && c.driverB && c.hasTB3)
  || (c.hasUSCI_A0 && c.driverA && (c.ms430f5172 || c.ms430f5529))
  || (c.hasUSCI_B0 && c.driverB && (c.f5172 || c.f5529))

/-- Build configuration of an MSP430F5172 target with the USCI_A driver
selected: the F5172 headers define both USCI capability macros and the
device macro `__MSP430F5172`; the misspelled macros are defined by nothing. -/
def cfgF5172_A : BuildConfig :=
  { hasUSI := false, hasUSCI := false, hasUSCI_A0 := true, hasUSCI_B0 := true,
    hasTB3 := false, driverA := true, driverB := false, f5172 := true,
    f5529 := false, ms430f5172 := false, ms430f5529 := false }

/-- Build configuration of an MSP430F5172 target with the USCI_B driver
selected. -/
def cfgF5172_B : BuildConfig :=
  { hasUSI := false, hasUSCI := false, hasUSCI_A0 := true, hasUSCI_B0 := true,
    hasTB3 := false, driverA := false, driverB := true, f5172 := true,
    f5529 := false, ms430f5172 := false, ms430f5529 := false }

/-- USCI_A register block of the G2xx3 backend as `spi_init` touches it
(source lines 86-99), together with the two port function-select registers
and the transmit buffer. -/
structure UsciA where
  p1sel : Nat
  p1sel2 : Nat
  ctl1 : Nat
  ctl0 : Nat
  mctl : Nat
  br0 : Nat
  br1 : Nat
  txbuf : Nat
deriving DecidableEq, Repr

/-- UCSWRST bit of UCA0CTL1. -/
def UCSWRST : Nat := 0x01

/-- UCSSEL_2 value of UCA0CTL1 (clock source SMCLK). -/
def UCSSEL_2 : Nat := 0x80

/-- UCCKPH bit of UCA0CTL0. -/
def UCCKPH : Nat := 0x80

/-- UCMSB bit of UCA0CTL0. -/
def UCMSB : Nat := 0x20

/-- UCMST bit of UCA0CTL0. -/
def UCMST : Nat := 0x08

/-- UCMODE_0 value of UCA0CTL0. -/
def UCMODE_0 : Nat := 0x00

/-- UCSYNC bit of UCA0CTL0. -/
def UCSYNC : Nat := 0x01

/-- Embedding of the G2xx3 USCI_A `spi_init` (source lines 86-99), write for
write: set BIT1|BIT2|BIT4 in P1SEL and P1SEL2, set UCSWRST in UCA0CTL1, clear
UCA0MCTL, assign UCA0CTL0, set the bit-rate divisor registers, and finally
assign UCA0CTL1 = UCSSEL_2 (which also clears UCSWRST). -/
def spi_init_usciA (d : UsciA) : UsciA :=
  let d := { d with p1sel := d.p1sel ||| (0x02 ||| 0x04 ||| 0x10) }
  let d := { d with p1sel2 := d.p1sel2 ||| (0x02 ||| 0x04 ||| 0x10) }
  let d := { d with ctl1 := d.ctl1 ||| UCSWRST }
  let d := { d with mctl := 0x00 }
  let d := { d with ctl0 := UCCKPH ||| UCMSB ||| UCMST ||| UCMODE_0 ||| UCSYNC }
  let d := { d with br0 := 0x01 }
  let d := { d with br1 := 0x00 }
  { d with ctl1 := UCSSEL_2 }

/-- Embedding of the USCI_A `spi_transfer` acting on the device registers:
the transmit byte is stored into the 8-bit transmit buffer and the 8-bit
receive buffer value `rx` is returned; no other register changes. -/
def spi_transfer_dev (d : UsciA) (inb rx : Nat) : Nat × UsciA :=
  (rx % 256, { d with txbuf := inb % 256 })

/-- USI register block as the USI `spi_init` touches it (source lines
30-38). -/
structure Usi where
  usictl0 : Nat
  usictl1 : Nat
  usickctl : Nat
  usisr : Nat
deriving DecidableEq, Repr

/-- USISWRST bit of USICTL0. -/
def USISWRST : Nat := 0x01

/-- USICKPH bit of USICTL1. -/
def USICKPH : Nat := 0x80

/-- USISSEL_2 value of USICKCTL (clock source SMCLK). -/
def USISSEL_2 : Nat := 0x08

/-- USIDIV_0 value of USICKCTL (divide by 1). -/
def USIDIV_0 : Nat := 0x00

/-- USIPE7|USIPE6|USIPE5|USIMST|USIOE value assigned to USICTL0. -/
def USICTL0_CFG : Nat := 0x80 ||| 0x40 ||| 0x20 ||| 0x08 ||| 0x02

/-- Embedding of the USI `spi_init` (source lines 30-38), write for write:
set USISWRST in USICTL0, assign USICTL1 = USICKPH, assign USICKCTL, assign
USICTL0 to the pin-enable/master/output-enable value (clearing USISWRST),
and clear the shift register. -/
def spi_init_usi (d : Usi) : Usi :=
  let d := { d with usictl0 := d.usictl0 ||| USISWRST }
  let d := { d with usictl1 := USICKPH }
  let d := { d with usickctl := USISSEL_2 ||| USIDIV_0 }
  let d := { d with usictl0 := USICTL0_CFG }
  { d with usisr := 0 }

/-- The receive-complete busy-wait of `spi_transfer` (the
`while (!(IFG2 & UCA0RXIFG));` of source lines 104-105) made explicit:
`flag i` is the state of the receive flag at the i-th poll, counted from the
write to the transmit register, and `fuel` bounds how many polls are
observed.  Returns whether the wait has finished within `fuel` polls. -/
def rxifg_wait (flag : Nat → Bool) (i : Nat) : Nat → Bool
  | 0 => false
  | fuel + 1 => if flag i then true else rxifg_wait flag (i + 1) fuel

/-- The USCI `spi_transfer` (source lines 101-107) with its busy-wait
observed for `fuel` polls: the transmit-register write, then `none` when the
wait is still spinning after `fuel` polls, or `some` of the returned 8-bit
receive-buffer value once the flag has risen. -/
def spi_transfer_wait (flag : Nat → Bool) (inb rx fuel : Nat) : List Nat × Option Nat :=
  ([inb % 256], if rxifg_wait flag 0 fuel then some (rx % 256) else none)

/-- Loopback wiring for the USCI_A pin map: the port input register mirrors
the driven output shifted right by one, so BIT1 (data in) reads the level of
BIT2 (data out), and the hardware 8-bit exchange echoes the transmitted
byte. -/
def loopbackA : SpiEnv :=
  { pin := fun p => p.out >>> 1, rx := fun b => b }

/-- Entry port state used by concrete witness instances. -/
def portW : Port :=
  { ren := 0xAB, out := 0xCD, dir := 0x5A, sel := 0x13, sel2 := 0x31 }

/- Helper lemmas about natural-number bit operations, shared by the claim
theorems below. -/

theorem testBit_and_of_true {m : Nat} (x i : Nat) (h : m.testBit i = true) :
    (x &&& m).testBit i = x.testBit i := by
  simp [Nat.testBit_land, h]

theorem testBit_or_of_false {m : Nat} (x i : Nat) (h : m.testBit i = false) :
    (x ||| m).testBit i = x.testBit i := by
  simp [Nat.testBit_lor, h]

theorem and_pow_ne_iff (x i : Nat) : x &&& 2 ^ i ≠ 0 ↔ x.testBit i = true := by
  rw [Nat.and_two_pow]
  cases h : x.testBit i <;> simp [h, (Nat.two_pow_pos i).ne']

theorem and_two_ne_iff (x : Nat) : x &&& 2 ≠ 0 ↔ x.testBit 1 = true := by
  have h := and_pow_ne_iff x 1
  norm_num at h
  exact h

theorem and_256_ne_iff (x : Nat) : x &&& 256 ≠ 0 ↔ x.testBit 8 = true := by
  have h := and_pow_ne_iff x 8
  norm_num at h
  exact h

theorem lor_and_self (x m : Nat) : (x ||| m) &&& m = m := by
  apply Nat.eq_of_testBit_eq
  intro i
  rw [Nat.testBit_land, Nat.testBit_lor]
  cases h : m.testBit i <;> simp [h]

theorem and_255_eq_mod (x : Nat) : x &&& 255 = x % 256 := by
  have h := Nat.and_pow_two_sub_one_eq_mod x 8
  norm_num at h
  exact h

theorem or_le_511 (a b : Nat) (ha : a < 512) (hb : b < 512) : a ||| b ≤ 511 := by
  have h : a ||| b < 2 ^ 9 := Nat.or_lt_two_pow (by omega) (by omega)
  omega

theorem ite_lt_512 (c : Prop) [inst : Decidable c] (a b : Nat)
    (ha : a < 512) (hb : b < 512) : (if c then a else b) < 512 := by
  split <;> assumption

set_option maxRecDepth 4096 in
theorem recombine9 : ∀ v < 512, (if v.testBit 8 then 256 else 0) ||| (v &&& 255) = v := by
  decide

theorem rxifg_wait_of_flag (flag : Nat → Bool) :
    ∀ fuel i n, i ≤ n → n < i + fuel → flag n = true → rxifg_wait flag i fuel = true := by
  intro fuel
  induction fuel with
  | zero =>
    intro i n h1 h2 _
    omega
  | succ k ih =>
    intro i n h1 h2 hf
    by_cases h : flag i = true
    · simp [rxifg_wait, h]
    · have hin : i ≠ n := fun e => h (e ▸ hf)
      simp [rxifg_wait, h]
      exact ih (i + 1) n (by omega) (by omega) hf

theorem rxifg_wait_none (flag : Nat → Bool) (hg : ∀ k, flag k = false) :
    ∀ fuel i, rxifg_wait flag i fuel = false := by
  intro fuel
  induction fuel with
  | zero =>
    intro i
    rfl
  | succ k ih =>
    intro i
    simp [rxifg_wait, hg i]
    exact ih (i + 1)

/-- C3: for every 16-bit value and every pair of bytes supplied by the remote
device, the little-endian (MSP430) `spi_transfer16` is observably equivalent
to two `spi_transfer` calls, most-significant byte first, the first received
byte becoming the high byte of the result: same sequence of transmit-register
writes, same return value. -/
theorem transfer16_is_two_transfer8 (inw r1 r2 : Nat) :
    spi_transfer16_obs Endian.little inw r1 r2 = transfer16_spec inw r1 r2 := by
  simp only [spi_transfer16_obs, transfer16_spec, spi_transfer_obs, byteAt, storeByte,
    Nat.shiftLeft_eq, Nat.shiftRight_eq_div_pow, and_255_eq_mod, Prod.mk.injEq,
    List.cons.injEq, List.append_eq]
  norm_num
  omega

/-- C4 counterexample: on a big-endian host the first transmit-register write
of `spi_transfer16` for input 0x0102 would be the low storage byte 0x02, not
0x0102 >> 8 = 0x01, so the decomposition is not independent of the host byte
order. -/
theorem transfer16_endian_counterexample :
    (spi_transfer16_obs Endian.big 0x0102 0 0).1 ≠
      [(0x0102 >>> 8) &&& 0xFF, 0x0102 &&& 0xFF] := by
  decide

/-- C4 amended: `spi_transfer16` decomposes the 16-bit value by storage byte
order (it reads the value through a `uint8_t` pointer, as the comment at
source lines 79-82 states).  On the little-endian MSP430 target the byte
written first is v >> 8 and the byte written second is v & 0xFF; on a
big-endian host the two writes would be in the opposite order, so the
decomposition depends on the host byte order. -/
theorem transfer16_byte_split_by_storage_order (v r1 r2 : Nat) :
    (spi_transfer16_obs Endian.little v r1 r2).1 = [(v >>> 8) &&& 0xFF, v &&& 0xFF] ∧
    (spi_transfer16_obs Endian.big v r1 r2).1 = [v &&& 0xFF, (v >>> 8) &&& 0xFF] := by
  simp only [spi_transfer16_obs, byteAt, Nat.shiftRight_eq_div_pow, and_255_eq_mod,
    List.cons.injEq]
  norm_num

/-- C5: on the F5xxx USCI_A backend (here the MSP430F5172 build with the
USCI_A driver selected) `spi_init`, `spi_transfer` and `spi_transfer16` are
compiled but `spi_transfer9` is not, because the guards at source lines 420
and 452 test the misspelled macros `__MS430F5172` and `__MS430F5529`; the
same chip with the USCI_B driver does get `spi_transfer9` (lines 531/563
spell the macros correctly). -/
theorem f5xxx_usci_a_lacks_transfer9 :
    defines_spi_init cfgF5172_A = true ∧
    defines_spi_transfer cfgF5172_A = true ∧
    defines_spi_transfer16 cfgF5172_A = true ∧
    defines_spi_transfer9 cfgF5172_A = false ∧
    defines_spi_transfer9 cfgF5172_B = true := by
  decide

/-- C6: `spi_init` is idempotent on the device state for the G2xx3 USCI_A
backend and for the USI backend: applying it twice leaves exactly the state
one application leaves, and a subsequent `spi_transfer` of 0x55 behaves
identically in both cases. -/
theorem spi_init_idempotent (d : UsciA) (u : Usi) (rx : Nat) :
    spi_init_usciA (spi_init_usciA d) = spi_init_usciA d ∧
    spi_init_usi (spi_init_usi u) = spi_init_usi u ∧
    spi_transfer_dev (spi_init_usciA (spi_init_usciA d)) 0x55 rx =
      spi_transfer_dev (spi_init_usciA d) 0x55 rx := by
  refine ⟨?_, ?_, ?_⟩ <;>
    simp [spi_init_usciA, spi_init_usi, spi_transfer_dev, Nat.lor_assoc, Nat.or_self]

/-- C7: `spi_transfer` writes the transmit register and then busy-waits on
the receive flag; when the environment raises the flag at some poll `n` the
wait terminates within any observation bound above `n` and the 8-bit receive
buffer is returned, and when the flag never rises the wait is still spinning
after every finite number of polls (no timeout exists at this layer). -/
theorem transfer8_wait_spec (flag g : Nat → Bool) (inb rx n fuel : Nat)
    (hn : flag n = true) (hfuel : n < fuel) (hg : ∀ k, g k = false) :
    spi_transfer_wait flag inb rx fuel = ([inb % 256], some (rx % 256)) ∧
    spi_transfer_wait g inb rx fuel = ([inb % 256], none) := by
  constructor
  · simp [spi_transfer_wait,
      rxifg_wait_of_flag flag fuel 0 n (Nat.zero_le n) (by omega) hn]
  · simp [spi_transfer_wait, rxifg_wait_none g hg fuel 0]

/-- C7 witness: a flag raised at the third poll terminates the wait within
five polls and returns the receive byte; a flag that never rises leaves the
wait spinning after five polls. -/
theorem transfer8_wait_spec_w :
    spi_transfer_wait (fun k => decide (k = 2)) 0x55 0x3A7 5 = ([0x55], some 0xA7) ∧
    spi_transfer_wait (fun _ => false) 0x55 0x3A7 5 = ([0x55], none) :=
  transfer8_wait_spec (fun k => decide (k = 2)) (fun _ => false) 0x55 0x3A7 2 5
    (by decide) (by decide) (fun _ => rfl)

/-- C10: on the USCI bit-banging backends the value `spi_transfer9` returns
never exceeds 0x1FF, for every input word, every entry port state and every
behaviour of the pin input register and of the hardware receive buffer: the
result is the OR of the sampled bit at position 8 and an 8-bit register
read. -/
theorem transfer9_result_at_most_9_bits (env : SpiEnv) (s : Port) (inw : Nat) :
    bb9_result usciA env s inw ≤ 0x1FF ∧ bb9_result usciB env s inw ≤ 0x1FF := by
  constructor <;>
  · simp only [bb9_result, bb9_run]
    exact or_le_511 _ _ (ite_lt_512 _ _ _ (by norm_num) (by norm_num)) (by omega)

/-- C1: for every entry port state, input word and environment, the
bit-banged `spi_transfer9` (both the USCI_A and the USCI_B pin variant)
returns with P1DIR, P1OUT and P1REN equal to their values immediately before
the call and with the three repurposed pins' function-select bits (P1SEL and
P1SEL2) set back to peripheral-function role; the delegated 8-bit hardware
transfer is the last event of the call, so the restore happens before it. -/
theorem transfer9_restores_pin_state (env : SpiEnv) (s : Port) (inw : Nat) :
    ((bb9_final usciA env s inw).dir = s.dir ∧
     (bb9_final usciA env s inw).out = s.out ∧
     (bb9_final usciA env s inw).ren = s.ren ∧
     (bb9_final usciA env s inw).sel &&& usciA.mask = usciA.mask ∧
     (bb9_final usciA env s inw).sel2 &&& usciA.mask = usciA.mask ∧
     (bb9_trace usciA env s inw).getLast? =
       some (Ev.hw (inw &&& 0xFF) (env.rx (inw &&& 0xFF) % 256)) ∧
     noHw (bb9_trace usciA env s inw).dropLast = true) ∧
    ((bb9_final usciB env s inw).dir = s.dir ∧
     (bb9_final usciB env s inw).out = s.out ∧
     (bb9_final usciB env s inw).ren = s.ren ∧
     (bb9_final usciB env s inw).sel &&& usciB.mask = usciB.mask ∧
     (bb9_final usciB env s inw).sel2 &&& usciB.mask = usciB.mask ∧
     (bb9_trace usciB env s inw).getLast? =
       some (Ev.hw (inw &&& 0xFF) (env.rx (inw &&& 0xFF) % 256)) ∧
     noHw (bb9_trace usciB env s inw).dropLast = true) := by
  by_cases h : inw &&& 0x100 ≠ 0 <;>
    refine ⟨⟨?_, ?_, ?_, ?_, ?_, ?_, ?_⟩, ⟨?_, ?_, ?_, ?_, ?_, ?_, ?_⟩⟩ <;>
      simp [bb9_final, bb9_trace, bb9_run, noHw, h, lor_and_self]

theorem bb9_sample_state_dout (env : SpiEnv) (s : Port) (inw : Nat) :
    (bb9_at usciA env s inw 7).out.testBit 2 = inw.testBit 8 := by
  by_cases h : inw &&& 0x100 ≠ 0
  · rw [(and_256_ne_iff inw).mp h]
    simp [bb9_at, bb9_states, bb9_run, usciA, h, Nat.testBit_lor, Nat.testBit_land,
      (by decide : (233:Nat).testBit 2 = false),
      (by decide : (4:Nat).testBit 2 = true),
      (by decide : (16:Nat).testBit 2 = false)]
  · have h8 : inw.testBit 8 = false := by
      cases hB : inw.testBit 8
      · rfl
      · exact absurd ((and_256_ne_iff inw).mpr hB) h
    rw [h8]
    simp [bb9_at, bb9_states, bb9_run, usciA, h, Nat.testBit_lor, Nat.testBit_land,
      (by decide : (233:Nat).testBit 2 = false),
      (by decide : (16:Nat).testBit 2 = false)]

/-- C2: under loopback wiring for the USCI_A bit-banging backend (the
data-in pin always reads back the level driven on the data-out pin, and the
hardware 8-bit exchange echoes the transmitted byte), `spi_transfer9`
returns its 9-bit input unchanged, for every entry port state. -/
theorem transfer9_loopback_identity (env : SpiEnv) (s : Port) (v : Nat)
    (hv : v < 512)
    (hpin : ∀ p : Port, (env.pin p).testBit 1 = p.out.testBit 2)
    (hrx : ∀ b, b < 256 → env.rx b = b) :
    bb9_result usciA env s v = v := by
  have hb : v &&& 0xFF ≤ 255 := Nat.and_le_right
  have hrx2 : env.rx (v &&& 0xFF) = v &&& 0xFF := hrx _ (by omega)
  have hmod : (v &&& 0xFF) % 256 = v &&& 0xFF := Nat.mod_eq_of_lt (by omega)
  have hsd := bb9_sample_state_dout env s v
  rw [← hpin] at hsd
  refine Eq.trans ?_ (recombine9 v hv)
  cases hB : v.testBit 8
  · have hnb : ¬(v &&& 0x100 ≠ 0) := by
      rw [and_256_ne_iff, hB]
      simp
    have hc : env.pin (bb9_at usciA env s v 7) &&& 2 = 0 := by
      have h2 := and_two_ne_iff (env.pin (bb9_at usciA env s v 7))
      rw [hsd, hB] at h2
      simpa using h2
    simp [bb9_at, bb9_states, bb9_run, usciA, hnb] at hc
    simp [bb9_result, bb9_run, usciA, hnb, hrx2, hmod, hc, hB]
  · have hb8 : v &&& 0x100 ≠ 0 := (and_256_ne_iff v).mpr hB
    have hcne : env.pin (bb9_at usciA env s v 7) &&& 2 ≠ 0 :=
      (and_two_ne_iff (env.pin (bb9_at usciA env s v 7))).mpr (by rw [hsd, hB])
    simp [bb9_at, bb9_states, bb9_run, usciA, hb8] at hcne
    simp [bb9_result, bb9_run, usciA, hb8, hrx2, hmod, hcne, hB]

/-- C2 witness: the loopback environment at entry state `portW` returns
input 0x155 unchanged. -/
theorem transfer9_loopback_identity_w :
    bb9_result usciA loopbackA portW 0x155 = 0x155 :=
  transfer9_loopback_identity loopbackA portW 0x155 (by decide)
    (fun p => by simp [loopbackA, Nat.testBit_shiftRight])
    (fun b hb => rfl)

theorem testBit8_hi_or (p r : Nat) (hr : r < 256) :
    ((if p &&& 2 ≠ 0 then (256 : Nat) else 0) ||| r).testBit 8 = p.testBit 1 := by
  by_cases hp : p &&& 2 ≠ 0
  · rw [if_pos hp, Nat.testBit_lor, (and_two_ne_iff p).mp hp]
    simp [(by decide : (256 : Nat).testBit 8 = true)]
  · have h1 : p.testBit 1 = false := by
      cases hB : p.testBit 1
      · rfl
      · exact absurd ((and_two_ne_iff p).mpr hB) hp
    rw [if_neg hp, Nat.testBit_lor, h1]
    have hr8 : r.testBit 8 = false := Nat.testBit_eq_false_of_lt (by omega)
    simp [hr8]

/-- C8: on the USCI_A bit-banging backend, `spi_transfer9 0x1C3` first drives
the data-out pin (BIT2) high while the manual clock pin (BIT4) is low, then
raises the clock, samples the data-in bit of P1IN in the clock-high state
(bit 8 of the result equals that sample), then lowers the clock; the clock
pin is low at every other driven intermediate state, so exactly one manual
clock pulse occurs, and the delegated 8-bit hardware transfer of 0xC3 is the
last event of the call. -/
theorem transfer9_0x1C3_event_order (env : SpiEnv) (s : Port) :
    (bb9_at usciA env s 0x1C3 6).out.testBit 2 = true ∧
    (bb9_at usciA env s 0x1C3 6).out.testBit 4 = false ∧
    (bb9_at usciA env s 0x1C3 7).out.testBit 4 = true ∧
    (bb9_at usciA env s 0x1C3 7).out.testBit 2 = true ∧
    (bb9_result usciA env s 0x1C3).testBit 8 =
      (env.pin (bb9_at usciA env s 0x1C3 7)).testBit 1 ∧
    (bb9_at usciA env s 0x1C3 8).out.testBit 4 = false ∧
    (bb9_at usciA env s 0x1C3 2).out.testBit 4 = false ∧
    (bb9_at usciA env s 0x1C3 3).out.testBit 4 = false ∧
    (bb9_at usciA env s 0x1C3 4).out.testBit 4 = false ∧
    (bb9_at usciA env s 0x1C3 5).out.testBit 4 = false ∧
    (bb9_at usciA env s 0x1C3 9).out.testBit 4 = false ∧
    (bb9_at usciA env s 0x1C3 10).out.testBit 4 = false ∧
    (bb9_at usciA env s 0x1C3 11).out.testBit 4 = false ∧
    (bb9_trace usciA env s 0x1C3).getLast? = some (Ev.hw 0xC3 (env.rx 0xC3 % 256)) ∧
    noHw (bb9_trace usciA env s 0x1C3).dropLast = true := by
  have h : (0x1C3 : Nat) &&& 0x100 ≠ 0 := by decide
  refine ⟨?_, ?_, ?_, ?_, ?_, ?_, ?_, ?_, ?_, ?_, ?_, ?_, ?_, ?_, ?_⟩
  case refine_5 =>
    show ((if env.pin (bb9_at usciA env s 0x1C3 7) &&& 2 ≠ 0 then (256 : Nat) else 0) |||
        (env.rx (0x1C3 &&& 0xFF) % 256)).testBit 8 =
      (env.pin (bb9_at usciA env s 0x1C3 7)).testBit 1
    exact testBit8_hi_or (env.pin (bb9_at usciA env s 0x1C3 7))
      (env.rx (0x1C3 &&& 0xFF) % 256) (by omega)
  all_goals
    simp [bb9_at, bb9_states, bb9_trace, bb9_run, noHw, usciA, h,
      Nat.testBit_lor, Nat.testBit_land,
      (by decide : (451 : Nat) &&& 255 = 195),
      (by decide : (233 : Nat).testBit 2 = false),
      (by decide : (233 : Nat).testBit 4 = false),
      (by decide : (4 : Nat).testBit 2 = true),
      (by decide : (4 : Nat).testBit 4 = false),
      (by decide : (16 : Nat).testBit 4 = true),
      (by decide : (16 : Nat).testBit 2 = false),
      (by decide : (239 : Nat).testBit 4 = false)]

theorem bb9_frame_aux (c : PinMap) (env : SpiEnv) (s : Port) (inw i : Nat)
    (hm : c.mask.testBit i = false) (ho : c.outm.testBit i = false)
    (hd : c.dout.testBit i = false) (hs : c.sck.testBit i = false)
    (hnm : (0xFF ^^^ c.mask).testBit i = true)
    (hns : (0xFF ^^^ c.sck).testBit i = true) :
    ∀ q ∈ bb9_states c env s inw, regsAgree q s i := by
  intro q hq
  by_cases h : inw &&& 0x100 ≠ 0 <;>
  · simp only [bb9_states, bb9_run] at hq
    fin_cases hq <;>
      simp [regsAgree, h, Nat.testBit_lor, Nat.testBit_land, hm, ho, hd, hs, hnm, hns]

/-- C9: at every intermediate point of a bit-banged `spi_transfer9` (entry
state and the state after each register write), a register bit belonging to a
pin outside the three repurposed SPI pins keeps its entry value in all five
port registers, on both the USCI_A pin variant (pins 1, 2, 4) and the USCI_B
pin variant (pins 5, 6, 7). -/
theorem transfer9_preserves_other_pins (env : SpiEnv) (s : Port) (inw i : Nat)
    (hi : i < 8) :
    (i ≠ 1 → i ≠ 2 → i ≠ 4 → ∀ q ∈ bb9_states usciA env s inw, regsAgree q s i) ∧
    (i ≠ 5 → i ≠ 6 → i ≠ 7 → ∀ q ∈ bb9_states usciB env s inw, regsAgree q s i) := by
  constructor
  · intro h1 h2 h4
    refine bb9_frame_aux usciA env s inw i ?_ ?_ ?_ ?_ ?_ ?_ <;>
      (simp only [usciA]; interval_cases i <;> first | omega | decide)
  · intro h5 h6 h7
    refine bb9_frame_aux usciB env s inw i ?_ ?_ ?_ ?_ ?_ ?_ <;>
      (simp only [usciB]; interval_cases i <;> first | omega | decide)

/-- C9 witness: bit 0 (a pin outside both repurposed sets) of every register
of the clock-high intermediate state of `spi_transfer9 0x1C3` from entry
state `portW` agrees with the entry state. -/
theorem transfer9_preserves_other_pins_w :
    regsAgree (bb9_at usciA loopbackA portW 0x1C3 7) portW 0 := by
  have h := (transfer9_preserves_other_pins loopbackA portW 0x1C3 0 (by decide)).1
    (by decide) (by decide) (by decide)
  exact h (bb9_at usciA loopbackA portW 0x1C3 7) (by decide)
